import Mathlib

/-!
Shallow embedding of the tippingchain SDK status-tracking services
(`TransactionStatusService.ts`, `RelayStatusService.ts`,
`BalanceWatcherService.ts`).  Stateful TypeScript code is modelled by
explicit state passing; each external read a poll loop performs is an
explicit input (a `TickInput` per tick, or an environment record), so the
loops become structurally recursive functions over the list of tick
inputs.  JavaScript numbers holding milliseconds are modelled as `Int`;
the relay progress value (a JS float) is modelled as `Rat`.
-/

/-- `TransactionStatus` union type from `TransactionStatusService.ts`. -/
inductive TransactionStatus where
  | pending
  | confirmed
  | failed
  | dropped
  | replaced
  | not_found
deriving DecidableEq

/-- Execution status field of a receipt (`'success' | 'failure'`). -/
inductive ExecStatus where
  | success
  | failure
deriving DecidableEq

/-- `TransactionReceipt` interface from `TransactionStatusService.ts`.
`timestamp` is optional in the TypeScript interface. -/
structure TransactionReceipt where
  transactionHash : String
  blockNumber : Nat
  blockHash : String
  gasUsed : String
  effectiveGasPrice : String
  status : ExecStatus
  confirmations : Nat
  timestamp : Option Int := none
deriving DecidableEq

/-- `TransactionStatusUpdate` interface from `TransactionStatusService.ts`. -/
structure TransactionStatusUpdate where
  transactionHash : String
  status : TransactionStatus
  receipt : Option TransactionReceipt := none
  error : Option String := none
  timestamp : Int
deriving DecidableEq

/-- `WatchTransactionOptions` merged with `DEFAULT_OPTIONS`
(`{ ...DEFAULT_OPTIONS, ...options }`), so every field is present; the
defaults are the source's `DEFAULT_OPTIONS`. -/
structure WatchTransactionOptions where
  maxRetries : Nat := 100
  retryInterval : Int := 3000
  timeout : Int := 300000
  confirmationsRequired : Nat := 1
deriving DecidableEq

/-- The raw JSON-RPC receipt object (`data.result`) that
`getTransactionReceipt` transforms, with hex fields already parsed. -/
structure RawRpcReceipt where
  transactionHash : String
  blockNumber : Nat
  blockHash : String
  gasUsed : Nat
  effectiveGasPrice : Option Nat
  statusHex : String
deriving DecidableEq

/-- The receipt object built by `getTransactionReceipt` from a non-null
RPC result at time `now` (`timestamp: Date.now()`).  The source hardcodes
`let confirmations = 1` ("Assume at least 1 confirmation if receipt
exists"). -/
def mkReceipt (raw : RawRpcReceipt) (now : Int) : TransactionReceipt :=
  { transactionHash := raw.transactionHash
    blockNumber := raw.blockNumber
    blockHash := raw.blockHash
    gasUsed := toString raw.gasUsed
    effectiveGasPrice := toString (raw.effectiveGasPrice.getD 0)
    status := if raw.statusHex = "0x1" then ExecStatus.success else ExecStatus.failure
    confirmations := 1
    timestamp := some now }

deriving instance DecidableEq for Except

/-- What one iteration of `_watchTransactionInternal`'s `poll` observes
from the outside world: the wall clock (`Date.now()`), the abort signal,
and the result of `this.getTransactionReceipt` (`Except.error msg` models
a thrown error caught by the `catch` block; `Except.ok none` models a
`null` receipt). -/
structure TickInput where
  now : Int
  aborted : Bool
  receipt : Except String (Option TransactionReceipt)
deriving DecidableEq

/-- Control-flow outcome of one `poll` iteration. -/
inductive TickOut where
  | done : TransactionStatusUpdate → TickOut
  | cancelled : TickOut
  | again : TickOut
deriving DecidableEq

/-- Result of one `poll` iteration: its outcome, whether
`getTransactionReceipt` was invoked on this iteration, and the value of
the `retries` counter afterwards. -/
structure TickRes where
  out : TickOut
  readReceipt : Bool
  retries : Nat
deriving DecidableEq

/-- One iteration of the `poll` closure inside
`_watchTransactionInternal`, mirroring its control flow: abort check,
then timeout check (`Date.now() - startTime > options.timeout`), then
receipt read with the confirmations / retry-budget branching, with the
`catch` branch for a thrown read. -/
def txTick (options : WatchTransactionOptions) (transactionHash : String)
    (startTime : Int) (t : TickInput) (retries : Nat) : TickRes :=
  if t.aborted then
    { out := TickOut.cancelled, readReceipt := false, retries := retries }
  else if t.now - startTime > options.timeout then
    { out := TickOut.done
        { transactionHash := transactionHash
          status := TransactionStatus.failed
          error := some "Transaction monitoring timeout"
          timestamp := t.now }
      readReceipt := false, retries := retries }
  else
    match t.receipt with
    | Except.error msg =>
      -- catch block: retries++, then fail if the budget is spent
      if retries + 1 ≥ options.maxRetries then
        { out := TickOut.done
            { transactionHash := transactionHash
              status := TransactionStatus.failed
              error := some msg
              timestamp := t.now }
          readReceipt := true, retries := retries + 1 }
      else
        { out := TickOut.again, readReceipt := true, retries := retries + 1 }
    | Except.ok none =>
      -- transaction not mined yet
      if retries < options.maxRetries then
        { out := TickOut.again, readReceipt := true, retries := retries + 1 }
      else
        { out := TickOut.done
            { transactionHash := transactionHash
              status := TransactionStatus.failed
              error := some "Transaction not found after maximum retries"
              timestamp := t.now }
          readReceipt := true, retries := retries }
    | Except.ok (some rc) =>
      if rc.confirmations ≥ options.confirmationsRequired then
        { out := TickOut.done
            { transactionHash := transactionHash
              status := if rc.status = ExecStatus.success then
                  TransactionStatus.confirmed else TransactionStatus.failed
              receipt := some rc
              timestamp := t.now }
          readReceipt := true, retries := retries }
      else if retries < options.maxRetries then
        -- mined but not enough confirmations: consume a retry
        { out := TickOut.again, readReceipt := true, retries := retries + 1 }
      else
        -- falls through to the "not mined" else-branch with the budget spent
        { out := TickOut.done
            { transactionHash := transactionHash
              status := TransactionStatus.failed
              error := some "Transaction not found after maximum retries"
              timestamp := t.now }
          readReceipt := true, retries := retries }

/-- `_watchTransactionInternal`'s recursive `poll`, run over a list of
per-tick observations.  `none` means the supplied trace ended with the
loop still polling; `some (Except.error e)` models the promise rejecting
(the `throw` on cancellation); `some (Except.ok u)` models resolution
with the final status update. -/
def pollTx (options : WatchTransactionOptions) (transactionHash : String)
    (startTime : Int) :
    List TickInput → Nat → Option (Except String TransactionStatusUpdate)
  | [], _ => none
  | t :: rest, retries =>
    match txTick options transactionHash startTime t retries with
    | { out := TickOut.cancelled, .. } =>
      some (Except.error "Transaction watching was cancelled")
    | { out := TickOut.done u, .. } => some (Except.ok u)
    | { out := TickOut.again, retries := r2, .. } =>
      pollTx options transactionHash startTime rest r2

/-- Association-list lookup, modelling `Map.get` on the keyed registries. -/
def lookupEntry : List (String × Nat) → String → Option Nat
  | [], _ => none
  | e :: rest, key => if e.1 = key then some e.2 else lookupEntry rest key

/-- Association-list removal, modelling `Map.delete`. -/
def removeEntry : List (String × Nat) → String → List (String × Nat)
  | [], _ => []
  | e :: rest, key =>
    if e.1 = key then removeEntry rest key else e :: removeEntry rest key

/-- The `activeWatchers` / `activeRelayWatchers` registry of a service
instance.  Each stored `Nat` identifies one in-flight watch (one
`AbortController` plus the promise all callers for that key share);
`nextId` is the identity the next newly started loop would get. -/
structure FlightReg where
  entries : List (String × Nat)
  nextId : Nat
deriving DecidableEq

/-- The shared look-up-or-start pattern of `watchTransaction` and
`trackRelay`: if the key is already registered return the existing
promise, else start a new internal loop and register it. -/
def acquireFlight (key : String) (s : FlightReg) : Nat × FlightReg :=
  match lookupEntry s.entries key with
  | some p => (p, s)
  | none =>
    (s.nextId, { entries := (key, s.nextId) :: s.entries, nextId := s.nextId + 1 })

/-- `watcherKey` construction in `TransactionStatusService`:
`` `${chain.id}-${transactionHash}` ``. -/
def txWatcherKey (chainId : Int) (transactionHash : String) : String :=
  toString chainId ++ "-" ++ transactionHash

/-- Registry effect of `TransactionStatusService.watchTransaction`:
dedup on the watcher key, else register a fresh watch. -/
def watchTransaction (transactionHash : String) (chainId : Int)
    (s : FlightReg) : Nat × FlightReg :=
  acquireFlight (txWatcherKey chainId transactionHash) s

/-- Registry effect of `RelayStatusService.trackRelay`: dedup on the
relay id alone. -/
def trackRelay (relayId : String) (s : FlightReg) : Nat × FlightReg :=
  acquireFlight relayId s

/-- The `promise.finally(() => activeWatchers.delete(watcherKey))`
cleanup that runs when the shared result settles. -/
def settleFlight (key : String) (s : FlightReg) : FlightReg :=
  { entries := removeEntry s.entries key, nextId := s.nextId }

/-- Full state of a `TransactionStatusService` instance: the registry
plus the set of watch ids whose `AbortController.abort()` has been
called (the signal each running loop reads at the top of a tick). -/
structure TxServiceState where
  reg : FlightReg
  abortedIds : List Nat
deriving DecidableEq

/-- `TransactionStatusService.cancelWatch`: abort the registered
controller (if any) and delete the registry entry. -/
def cancelWatch (transactionHash : String) (chainId : Int)
    (s : TxServiceState) : TxServiceState :=
  let watcherKey := txWatcherKey chainId transactionHash
  match lookupEntry s.reg.entries watcherKey with
  | some w =>
    { reg := { entries := removeEntry s.reg.entries watcherKey
               nextId := s.reg.nextId }
      abortedIds := w :: s.abortedIds }
  | none => s

/-- Status union of `RelayStatus` in `RelayStatusService.ts`. -/
inductive RelayStatusKind where
  | initiated
  | pending
  | relaying
  | completed
  | failed
deriving DecidableEq

/-- `RelayStatus` interface from `RelayStatusService.ts`.  `progress` is
a JS number in `[0,100]`, modelled as `Rat`. -/
structure RelayRecord where
  relayId : String
  sourceChain : Int
  destinationChain : Int
  sourceTransactionHash : String
  destinationTransactionHash : Option String := none
  status : RelayStatusKind
  estimatedCompletionTime : Option Int := none
  actualCompletionTime : Option Int := none
  error : Option String := none
  progress : Rat
  sourceAmount : String
  destinationAmount : Option String := none
  tokenSymbol : String
deriving DecidableEq

/-- `getEstimatedRelayTime` from `RelayStatusService.ts`: base 120s,
+60s for a slow source chain (Ethereum, Polygon, Optimism), −30s when
the destination is ApeChain (33139), floored at 60s. -/
def getEstimatedRelayTime (sourceChainId destinationChainId : Int) : Int :=
  let baseTime : Int := 120000
  let baseTime :=
    if sourceChainId = 1 ∨ sourceChainId = 137 ∨ sourceChainId = 10 then
      baseTime + 60000
    else baseTime
  let baseTime :=
    if destinationChainId = 33139 then baseTime - 30000 else baseTime
  max 60000 baseTime

/-- The time-based progress estimate inside `getRelayStatus`'s fallback
branch: `Math.min(95, 50 + (elapsedTime / estimatedRelayTime) * 45)`. -/
def heuristicProgress (elapsedTime estimatedRelayTime : Int) : Rat :=
  min 95 (50 + ((elapsedTime : Rat) / (estimatedRelayTime : Rat)) * 45)

/-- What one `getRelayStatus` call observes from its collaborators: the
source-chain status from the Transaction Watcher, the bridging-API
result (`Except.error` models a thrown call, caught and logged;
`Except.ok none` models an unavailable record), the source receipt, the
best-effort destination-transaction lookup and the destination status,
plus the wall clock. -/
structure RelayEnv where
  sourceStatus : TransactionStatus
  apiResult : Except Unit (Option RelayRecord)
  sourceReceipt : Option TransactionReceipt
  destinationTxHash : Option String
  destStatus : TransactionStatus
  now : Int
deriving DecidableEq

/-- Result of a `getRelayStatus` call together with which collaborators
were actually invoked: `apiCalled` records a `getRelayStatusFromAPI`
call, `destResolverCalled` a `findDestinationTransaction` call. -/
structure RelayStatusCall where
  result : RelayRecord
  apiCalled : Bool
  destResolverCalled : Bool
deriving DecidableEq

/-- `RelayStatusService.getRelayStatus`, mirroring its priority order:
source failed / not found short-circuits; source pending is fixed at
25; otherwise try the bridging API; otherwise the time-based fallback
from the source receipt (with destination discovery once past the
estimate); otherwise `initiated` at 10.  (The collaborators catch their
own errors internally, so the outer `catch` of the source is
unreachable and is not modelled.)  The `sourceReceipt.timestamp ||
Date.now()` fallback covers both a missing and a `0` (falsy)
timestamp. -/
def getRelayStatus (relayId : String) (sourceChainId destinationChainId : Int)
    (sourceTransactionHash : String) (env : RelayEnv) : RelayStatusCall :=
  if env.sourceStatus = TransactionStatus.not_found ∨
      env.sourceStatus = TransactionStatus.failed then
    { result :=
        { relayId := relayId
          sourceChain := sourceChainId
          destinationChain := destinationChainId
          sourceTransactionHash := sourceTransactionHash
          status := RelayStatusKind.failed
          progress := 0
          error := some (if env.sourceStatus = TransactionStatus.not_found then
              "Source transaction not found" else "Source transaction failed")
          sourceAmount := "0"
          tokenSymbol := "UNKNOWN" }
      apiCalled := false
      destResolverCalled := false }
  else if env.sourceStatus = TransactionStatus.pending then
    { result :=
        { relayId := relayId
          sourceChain := sourceChainId
          destinationChain := destinationChainId
          sourceTransactionHash := sourceTransactionHash
          status := RelayStatusKind.pending
          progress := 25
          sourceAmount := "0"
          tokenSymbol := "UNKNOWN" }
      apiCalled := false
      destResolverCalled := false }
  else
    match env.apiResult with
    | Except.ok (some apiStatus) =>
      { result := apiStatus, apiCalled := true, destResolverCalled := false }
    | _ =>
      match env.sourceReceipt with
      | some sourceReceipt =>
        let ts : Int :=
          match sourceReceipt.timestamp with
          | some t => if t = 0 then env.now else t
          | none => env.now
        let elapsedTime := env.now - ts
        let estimatedRelayTime :=
          getEstimatedRelayTime sourceChainId destinationChainId
        if elapsedTime > estimatedRelayTime then
          match env.destinationTxHash with
          | some destinationTxHash =>
            let sp : RelayStatusKind × Rat :=
              if env.destStatus = TransactionStatus.confirmed then
                (RelayStatusKind.completed, 100)
              else if env.destStatus = TransactionStatus.failed then
                (RelayStatusKind.failed, 75)
              else (RelayStatusKind.relaying, 50)
            { result :=
                { relayId := relayId
                  sourceChain := sourceChainId
                  destinationChain := destinationChainId
                  sourceTransactionHash := sourceTransactionHash
                  destinationTransactionHash := some destinationTxHash
                  status := sp.1
                  progress := sp.2
                  sourceAmount := "0"
                  tokenSymbol := "USDC" }
              apiCalled := true
              destResolverCalled := true }
          | none =>
            { result :=
                { relayId := relayId
                  sourceChain := sourceChainId
                  destinationChain := destinationChainId
                  sourceTransactionHash := sourceTransactionHash
                  status := RelayStatusKind.relaying
                  progress := 50
                  sourceAmount := "0"
                  tokenSymbol := "USDC"
                  estimatedCompletionTime := some (ts + estimatedRelayTime) }
              apiCalled := true
              destResolverCalled := true }
        else
          { result :=
              { relayId := relayId
                sourceChain := sourceChainId
                destinationChain := destinationChainId
                sourceTransactionHash := sourceTransactionHash
                status := RelayStatusKind.relaying
                progress := heuristicProgress elapsedTime estimatedRelayTime
                sourceAmount := "0"
                tokenSymbol := "USDC"
                estimatedCompletionTime := some (ts + estimatedRelayTime) }
            apiCalled := true
            destResolverCalled := false }
      | none =>
        { result :=
            { relayId := relayId
              sourceChain := sourceChainId
              destinationChain := destinationChainId
              sourceTransactionHash := sourceTransactionHash
              status := RelayStatusKind.initiated
              progress := 10
              sourceAmount := "0"
              tokenSymbol := "UNKNOWN" }
          apiCalled := true
          destResolverCalled := false }

/-- The callback-emission behaviour of `trackRelayWithCallback`'s poll
loop, along ticks on which the deadline has not been hit: given the
sequence of `(status, progress)` pairs computed by `getRelayStatus` on
successive ticks, it returns the list of `progress` values passed to
`onUpdate`, starting from `lastProgress = 0`.  An update is emitted when
`relayStatus.progress !== lastProgress || opts.enableProgressUpdates`,
after which `lastProgress` is set to the freshly computed value; the
loop stops after a `completed` or `failed` status. -/
def relayCallbackStream (enableProgressUpdates : Bool) :
    Rat → List (RelayStatusKind × Rat) → List Rat
  | _, [] => []
  | lastProgress, s :: rest =>
    let emit := s.2 ≠ lastProgress ∨ enableProgressUpdates = true
    let emitted := if emit then [s.2] else []
    let lastProgress2 := if emit then s.2 else lastProgress
    if s.1 = RelayStatusKind.completed ∨ s.1 = RelayStatusKind.failed then
      emitted
    else
      emitted ++ relayCallbackStream enableProgressUpdates lastProgress2 rest

/-- One entry of `BalanceWatcherService.balanceCache`:
`{ balance, timestamp }`. -/
structure BalCacheEntry where
  balance : String
  timestamp : Int
deriving DecidableEq

/-- Association-list lookup on the balance cache (`Map.get`). -/
def lookupCache : List (String × BalCacheEntry) → String → Option BalCacheEntry
  | [], _ => none
  | e :: rest, key => if e.1 = key then some e.2 else lookupCache rest key

/-- `Map.set` on the balance cache: replace any entry for the key. -/
def setCache (cache : List (String × BalCacheEntry)) (key : String)
    (v : BalCacheEntry) : List (String × BalCacheEntry) :=
  (key, v) :: cache.filter (fun e => decide (e.1 ≠ key))

/-- Mutable state of a `BalanceWatcherService` instance that `getBalance`
touches: the balance cache. -/
structure BalState where
  cache : List (String × BalCacheEntry)
deriving DecidableEq

/-- `this.CACHE_DURATION = 5000` ms. -/
def CACHE_DURATION : Int := 5000

/-- The `tokenAddress || 'native'` key component: `undefined` (and the
falsy empty string) become `'native'`. -/
def tokenOrNative (tokenAddress : Option String) : String :=
  match tokenAddress with
  | none => "native"
  | some t => if t = "" then "native" else t

/-- Cache/watcher key construction shared by `getBalance`,
`watchBalance` and `getCachedBalance`:
`` `${chain.id}-${address}-${tokenAddress || 'native'}` ``. -/
def balKey (chainId : Int) (address : String) (tokenAddress : Option String) :
    String :=
  toString chainId ++ "-" ++ address ++ "-" ++ tokenOrNative tokenAddress

/-- `BalanceWatcherService.getBalance`, with the external balance source
(ERC20 `balanceOf` read or native-balance RPC) abstracted as the
`external` input (`Except.error` models a thrown read, caught by the
`catch` that returns `'0'` without touching the cache).  Returns the
balance, the updated state, and whether an external read was issued.
On a successful external read the cache entry is written before
returning. -/
def getBalance (s : BalState) (chainId : Int) (address : String)
    (tokenAddress : Option String) (useCache : Bool) (now : Int)
    (external : Except Unit String) : String × BalState × Bool :=
  let cacheKey := balKey chainId address tokenAddress
  let readExternal : String × BalState × Bool :=
    match external with
    | Except.ok balance =>
      (balance,
       { cache := setCache s.cache cacheKey
           { balance := balance, timestamp := now } },
       true)
    | Except.error _ => ("0", s, true)
  if useCache then
    match lookupCache s.cache cacheKey with
    | some cached =>
      if now - cached.timestamp < CACHE_DURATION then (cached.balance, s, false)
      else readExternal
    | none => readExternal
  else readExternal

/-- `BalanceUpdate` interface from `BalanceWatcherService.ts`. -/
structure BalanceUpdate where
  address : String
  tokenAddress : Option String
  balance : String
  previousBalance : Option String := none
  chainId : Int
  timestamp : Int
deriving DecidableEq

/-- One tick of the `pollBalance` closure inside `watchBalance`
(both the initial fetch and each interval tick), mirroring its order of
operations: `getBalance` (with `useCache` defaulted to `true`), then the
cache lookup that provides `previousBalance`, then the
`!previousBalance || currentBalance !== previousBalance` change test
(firing `onBalanceChange` when it holds — the returned list holds the
updates passed to the callback), then the unconditional cache write.
Note `getBalance` itself already wrote the fresh balance into the same
cache key on an external read. -/
def pollBalance (s : BalState) (address : String) (chainId : Int)
    (tokenAddress : Option String) (now : Int)
    (external : Except Unit String) : BalState × List BalanceUpdate :=
  let watcherKey := balKey chainId address tokenAddress
  let gb := getBalance s chainId address tokenAddress true now external
  let currentBalance := gb.1
  let s1 := gb.2.1
  let cached := lookupCache s1.cache watcherKey
  let previousBalance := Option.map BalCacheEntry.balance cached
  let fire : Bool :=
    match previousBalance with
    | none => true
    | some p => if p = "" then true else decide (currentBalance ≠ p)
  let updates : List BalanceUpdate :=
    if fire then
      [{ address := address
         tokenAddress := tokenAddress
         balance := currentBalance
         previousBalance := previousBalance
         chainId := chainId
         timestamp := now }]
    else []
  ({ cache := setCache s1.cache watcherKey
       { balance := currentBalance, timestamp := now } },
   updates)

section Lemmas

/-- Settling removes every registry entry for the key. -/
theorem lookupEntry_removeEntry (l : List (String × Nat)) (key : String) :
    lookupEntry (removeEntry l key) key = none := by
  induction l with
  | nil => rfl
  | cons e rest ih =>
    by_cases h : e.1 = key
    · simpa [removeEntry, h] using ih
    · simp [removeEntry, lookupEntry, h, ih]

/-- A second `acquireFlight` for a key right after a first one returns
the promise the first call produced and leaves the registry unchanged. -/
theorem acquireFlight_dedup (key : String) (s : FlightReg) :
    acquireFlight key ((acquireFlight key s).2)
      = ((acquireFlight key s).1, (acquireFlight key s).2) := by
  rcases h : lookupEntry s.entries key with _ | p
  · simp [acquireFlight, h, lookupEntry]
  · simp [acquireFlight, h]

/-- Writing a cache entry makes it the one `lookupCache` finds. -/
theorem lookupCache_setCache_self (cache : List (String × BalCacheEntry))
    (key : String) (v : BalCacheEntry) :
    lookupCache (setCache cache key v) key = some v := by
  simp [setCache, lookupCache]

end Lemmas

/-- C1.  Single-flight dedup: a second `watchTransaction` for the same
`(chain.id, transactionHash)` while the first is in flight returns the
identical promise without touching the registry; a second `trackRelay`
for the same `relayId` does likewise; and once the shared result
settles, the cleanup removes the key's registry entry (both services). -/
theorem single_flight_dedup (s : FlightReg) (chainId : Int)
    (transactionHash relayId : String) :
    watchTransaction transactionHash chainId
        ((watchTransaction transactionHash chainId s).2)
      = ((watchTransaction transactionHash chainId s).1,
         (watchTransaction transactionHash chainId s).2)
    ∧ trackRelay relayId ((trackRelay relayId s).2)
      = ((trackRelay relayId s).1, (trackRelay relayId s).2)
    ∧ lookupEntry (settleFlight (txWatcherKey chainId transactionHash)
        ((watchTransaction transactionHash chainId s).2)).entries
        (txWatcherKey chainId transactionHash) = none
    ∧ lookupEntry (settleFlight relayId ((trackRelay relayId s).2)).entries
        relayId = none :=
  ⟨acquireFlight_dedup _ s, acquireFlight_dedup _ s,
   lookupEntry_removeEntry _ _, lookupEntry_removeEntry _ _⟩

/-- C2.  Timeout priority: on any non-cancelled tick whose elapsed time
exceeds `options.timeout`, the watch terminates with status `failed` and
the timeout error string, without invoking `getTransactionReceipt` on
that tick and without changing the retry counter. -/
theorem timeout_priority (options : WatchTransactionOptions)
    (transactionHash : String) (startTime : Int) (t : TickInput)
    (rest : List TickInput) (retries : Nat)
    (hab : t.aborted = false)
    (hto : options.timeout < t.now - startTime) :
    txTick options transactionHash startTime t retries
      = { out := TickOut.done
            { transactionHash := transactionHash
              status := TransactionStatus.failed
              receipt := none
              error := some "Transaction monitoring timeout"
              timestamp := t.now }
          readReceipt := false
          retries := retries }
    ∧ pollTx options transactionHash startTime (t :: rest) retries
      = some (Except.ok
          { transactionHash := transactionHash
            status := TransactionStatus.failed
            receipt := none
            error := some "Transaction monitoring timeout"
            timestamp := t.now }) := by
  have h1 : txTick options transactionHash startTime t retries
      = { out := TickOut.done
            { transactionHash := transactionHash
              status := TransactionStatus.failed
              receipt := none
              error := some "Transaction monitoring timeout"
              timestamp := t.now }
          readReceipt := false
          retries := retries } := by
    simp [txTick, hab, hto]
  exact ⟨h1, by simp [pollTx, h1]⟩

/-- C2 witness: a concrete tick past the deadline. -/
theorem timeout_priority_witness :
    pollTx { maxRetries := 100, retryInterval := 3000, timeout := 1000,
             confirmationsRequired := 1 } "0xh" 0
        ({ now := 2000, aborted := false, receipt := Except.ok none } :: []) 5
      = some (Except.ok
          { transactionHash := "0xh"
            status := TransactionStatus.failed
            receipt := none
            error := some "Transaction monitoring timeout"
            timestamp := 2000 }) :=
  (timeout_priority _ "0xh" 0 _ [] 5 rfl (by decide)).2

/-- C5.  Relay failure short-circuit: when the source-chain status is
`not_found` or `failed`, `getRelayStatus` returns `failed` with progress
0 and an error string, and invokes neither the bridging API nor the
destination-transaction resolver. -/
theorem relay_failure_short_circuit (relayId : String)
    (sourceChainId destinationChainId : Int) (sourceTransactionHash : String)
    (env : RelayEnv)
    (h : env.sourceStatus = TransactionStatus.not_found ∨
         env.sourceStatus = TransactionStatus.failed) :
    (getRelayStatus relayId sourceChainId destinationChainId
        sourceTransactionHash env).result.status = RelayStatusKind.failed
    ∧ (getRelayStatus relayId sourceChainId destinationChainId
        sourceTransactionHash env).result.progress = 0
    ∧ (getRelayStatus relayId sourceChainId destinationChainId
        sourceTransactionHash env).result.error
      = some (if env.sourceStatus = TransactionStatus.not_found then
          "Source transaction not found" else "Source transaction failed")
    ∧ (getRelayStatus relayId sourceChainId destinationChainId
        sourceTransactionHash env).apiCalled = false
    ∧ (getRelayStatus relayId sourceChainId destinationChainId
        sourceTransactionHash env).destResolverCalled = false := by
  rw [getRelayStatus, if_pos h]
  exact ⟨rfl, rfl, rfl, rfl, rfl⟩

/-- C5 witness: a source transaction that failed. -/
theorem relay_failure_short_circuit_witness :
    (getRelayStatus "relay_1" 137 33139 "0xsrc"
        { sourceStatus := TransactionStatus.failed
          apiResult := Except.ok none
          sourceReceipt := none
          destinationTxHash := none
          destStatus := TransactionStatus.pending
          now := 0 }).result.progress = 0
    ∧ (getRelayStatus "relay_1" 137 33139 "0xsrc"
        { sourceStatus := TransactionStatus.failed
          apiResult := Except.ok none
          sourceReceipt := none
          destinationTxHash := none
          destStatus := TransactionStatus.pending
          now := 0 }).apiCalled = false :=
  ⟨(relay_failure_short_circuit "relay_1" 137 33139 "0xsrc" _
      (Or.inr rfl)).2.1,
   (relay_failure_short_circuit "relay_1" 137 33139 "0xsrc" _
      (Or.inr rfl)).2.2.2.1⟩

section HeuristicLemmas

/-- The relay-time estimate is at least its 60s floor, hence positive. -/
theorem getEstimatedRelayTime_ge (sourceChainId destinationChainId : Int) :
    60000 ≤ getEstimatedRelayTime sourceChainId destinationChainId := by
  unfold getEstimatedRelayTime
  exact le_max_left _ _

/-- The interpolated progress stays in `[50, 95]` while elapsed time is
within the estimate. -/
theorem heuristicProgress_bounds (elapsedTime estimatedRelayTime : Int)
    (hpos : 0 < estimatedRelayTime) (h0 : 0 ≤ elapsedTime) :
    50 ≤ heuristicProgress elapsedTime estimatedRelayTime
    ∧ heuristicProgress elapsedTime estimatedRelayTime ≤ 95 := by
  have hq : (0 : Rat) < (estimatedRelayTime : Rat) := by exact_mod_cast hpos
  have hdiv0 : (0 : Rat) ≤ (elapsedTime : Rat) / (estimatedRelayTime : Rat) :=
    div_nonneg (by exact_mod_cast h0) (le_of_lt hq)
  constructor
  · refine le_min (by norm_num) ?_
    nlinarith
  · exact min_le_left _ _

/-- Strict monotonicity of the interpolated progress in elapsed time,
under the estimate. -/
theorem heuristicProgress_strictMono (estimatedRelayTime e1 e2 : Int)
    (hpos : 0 < estimatedRelayTime) (h12 : e1 < e2)
    (h2 : e2 ≤ estimatedRelayTime) :
    heuristicProgress e1 estimatedRelayTime
      < heuristicProgress e2 estimatedRelayTime := by
  have hq : (0 : Rat) < (estimatedRelayTime : Rat) := by exact_mod_cast hpos
  have harg : ∀ e : Int, e ≤ estimatedRelayTime →
      50 + ((e : Rat) / (estimatedRelayTime : Rat)) * 45 ≤ 95 := by
    intro e he
    have h1 : ((e : Rat)) / (estimatedRelayTime : Rat) ≤ 1 := by
      rw [div_le_one hq]
      exact_mod_cast he
    nlinarith
  have hlt : ((e1 : Rat)) / (estimatedRelayTime : Rat)
      < ((e2 : Rat)) / (estimatedRelayTime : Rat) := by
    refine (div_lt_div_iff_of_pos_right hq).mpr ?_
    exact_mod_cast h12
  unfold heuristicProgress
  rw [min_eq_right (harg e1 (le_of_lt (lt_of_lt_of_le h12 h2))),
      min_eq_right (harg e2 h2)]
  nlinarith

end HeuristicLemmas

/-- C8.  Heuristic relay progress interpolation: with the source
confirmed, no bridging-API record, a source receipt whose (non-falsy)
timestamp is at most the estimated relay duration ago, `getRelayStatus`
reports `relaying` with progress `min 95 (50 + 45 * elapsed/estimate)`;
that value lies in `[50, 95]`, and for elapsed times `e1 < e2` within
the estimate the progress at `e1` is strictly below the progress at
`e2`. -/
theorem relay_heuristic_interpolation (relayId : String)
    (sourceChainId destinationChainId : Int) (sourceTransactionHash : String)
    (env : RelayEnv) (rc : TransactionReceipt) (ts0 : Int)
    (hs : env.sourceStatus = TransactionStatus.confirmed)
    (hapi : env.apiResult = Except.ok none ∨ env.apiResult = Except.error ())
    (hrc : env.sourceReceipt = some rc)
    (hts : rc.timestamp = some ts0) (hts0 : ts0 ≠ 0)
    (he0 : 0 ≤ env.now - ts0)
    (hee : env.now - ts0 ≤ getEstimatedRelayTime sourceChainId destinationChainId) :
    (getRelayStatus relayId sourceChainId destinationChainId
        sourceTransactionHash env).result.status = RelayStatusKind.relaying
    ∧ (getRelayStatus relayId sourceChainId destinationChainId
        sourceTransactionHash env).result.progress
      = heuristicProgress (env.now - ts0)
          (getEstimatedRelayTime sourceChainId destinationChainId)
    ∧ 50 ≤ (getRelayStatus relayId sourceChainId destinationChainId
        sourceTransactionHash env).result.progress
    ∧ (getRelayStatus relayId sourceChainId destinationChainId
        sourceTransactionHash env).result.progress ≤ 95
    ∧ ∀ e1 e2 : Int, 0 ≤ e1 → e1 < e2 →
        e2 ≤ getEstimatedRelayTime sourceChainId destinationChainId →
        heuristicProgress e1
            (getEstimatedRelayTime sourceChainId destinationChainId)
          < heuristicProgress e2
            (getEstimatedRelayTime sourceChainId destinationChainId) := by
  have hpos : 0 < getEstimatedRelayTime sourceChainId destinationChainId :=
    lt_of_lt_of_le (by norm_num)
      (getEstimatedRelayTime_ge sourceChainId destinationChainId)
  have hred : getRelayStatus relayId sourceChainId destinationChainId
      sourceTransactionHash env
      = { result :=
            { relayId := relayId
              sourceChain := sourceChainId
              destinationChain := destinationChainId
              sourceTransactionHash := sourceTransactionHash
              status := RelayStatusKind.relaying
              progress := heuristicProgress (env.now - ts0)
                (getEstimatedRelayTime sourceChainId destinationChainId)
              sourceAmount := "0"
              tokenSymbol := "USDC"
              estimatedCompletionTime := some (ts0 +
                getEstimatedRelayTime sourceChainId destinationChainId) }
          apiCalled := true
          destResolverCalled := false } := by
    rcases hapi with h | h <;>
      simp [getRelayStatus, hs, h, hrc, hts, hts0, not_lt.mpr hee]
  refine ⟨by rw [hred], by rw [hred], ?_, ?_, ?_⟩
  · rw [hred]
    exact (heuristicProgress_bounds _ _ hpos he0).1
  · rw [hred]
    exact (heuristicProgress_bounds _ _ hpos he0).2
  · intro e1 e2 h0 h12 h2
    exact heuristicProgress_strictMono _ e1 e2 hpos h12 h2

/-- C8 witness: elapsed 60000 ms of a 120000 ms estimate gives progress
72.5, within `[50, 95]`, and progress strictly increases from the
quarter point to the three-quarter point of the estimate. -/
theorem relay_heuristic_interpolation_witness :
    (getRelayStatus "relay_1" 5 6 "0xsrc"
        { sourceStatus := TransactionStatus.confirmed
          apiResult := Except.ok none
          sourceReceipt := some (mkReceipt
            { transactionHash := "0xsrc", blockNumber := 1, blockHash := "0xb",
              gasUsed := 21000, effectiveGasPrice := some 5,
              statusHex := "0x1" } 1000)
          destinationTxHash := none
          destStatus := TransactionStatus.pending
          now := 61000 }).result.status = RelayStatusKind.relaying
    ∧ heuristicProgress 30000 (getEstimatedRelayTime 5 6)
      < heuristicProgress 90000 (getEstimatedRelayTime 5 6) :=
  ⟨(relay_heuristic_interpolation "relay_1" 5 6 "0xsrc" _ _ 1000 rfl
      (Or.inl rfl) rfl rfl (by decide) (by decide) (by decide)).1,
   (relay_heuristic_interpolation "relay_1" 5 6 "0xsrc"
      { sourceStatus := TransactionStatus.confirmed
        apiResult := Except.ok none
        sourceReceipt := some (mkReceipt
          { transactionHash := "0xsrc", blockNumber := 1, blockHash := "0xb",
            gasUsed := 21000, effectiveGasPrice := some 5,
            statusHex := "0x1" } 1000)
        destinationTxHash := none
        destStatus := TransactionStatus.pending
        now := 61000 } _ 1000 rfl (Or.inl rfl) rfl rfl (by decide) (by decide)
      (by decide)).2.2.2.2 30000 90000 (by decide) (by decide) (by decide)⟩

/-- C9.  Balance cache freshness: a `getBalance` call with
`useCache = true` and a cache entry younger than `CACHE_DURATION`
returns the cached balance without issuing an external read; starting
from no cache entry, a first read at `t1` issues the external read, a
second within the window returns the first result with no read, and a
third at or past the window issues a new external read. -/
theorem balance_cache_freshness (s : BalState) (chainId : Int)
    (address : String) (tokenAddress : Option String) (t1 t2 t3 : Int)
    (e1 e3 : String) (ext2 : Except Unit String)
    (hnone : lookupCache s.cache (balKey chainId address tokenAddress) = none)
    (h12 : t2 - t1 < CACHE_DURATION)
    (h13 : CACHE_DURATION ≤ t3 - t1) :
    (∀ (s0 : BalState) (c : BalCacheEntry) (now : Int)
        (ext : Except Unit String),
        lookupCache s0.cache (balKey chainId address tokenAddress) = some c →
        now - c.timestamp < CACHE_DURATION →
        getBalance s0 chainId address tokenAddress true now ext
          = (c.balance, s0, false))
    ∧ (getBalance s chainId address tokenAddress true t1 (Except.ok e1)).2.2
      = true
    ∧ getBalance
        ((getBalance s chainId address tokenAddress true t1
          (Except.ok e1)).2.1) chainId address tokenAddress true t2 ext2
      = (e1,
         (getBalance s chainId address tokenAddress true t1
           (Except.ok e1)).2.1,
         false)
    ∧ (getBalance
        ((getBalance s chainId address tokenAddress true t1
          (Except.ok e1)).2.1) chainId address tokenAddress true t3
        (Except.ok e3)).2.2 = true := by
  have hfresh : ∀ (s0 : BalState) (c : BalCacheEntry) (now : Int)
      (ext : Except Unit String),
      lookupCache s0.cache (balKey chainId address tokenAddress) = some c →
      now - c.timestamp < CACHE_DURATION →
      getBalance s0 chainId address tokenAddress true now ext
        = (c.balance, s0, false) := by
    intro s0 c now ext hc hfr
    simp [getBalance, hc, hfr]
  have h1 : getBalance s chainId address tokenAddress true t1 (Except.ok e1)
      = (e1,
         { cache := setCache s.cache (balKey chainId address tokenAddress)
             { balance := e1, timestamp := t1 } },
         true) := by
    simp [getBalance, hnone]
  refine ⟨hfresh, by rw [h1], ?_, ?_⟩
  · rw [h1]
    exact hfresh _ { balance := e1, timestamp := t1 } t2 ext2
      (lookupCache_setCache_self _ _ _) h12
  · rw [h1]
    simp [getBalance, lookupCache_setCache_self, not_lt.mpr h13]

/-- C9 witness: reads at 0 ms, 3000 ms and 6000 ms from an empty cache. -/
theorem balance_cache_freshness_witness :
    (getBalance (BalState.mk []) 1 "0xaddr" none true 0 (Except.ok "7")).2.2
      = true
    ∧ getBalance
        ((getBalance (BalState.mk []) 1 "0xaddr" none true 0
          (Except.ok "7")).2.1) 1 "0xaddr" none true 3000 (Except.ok "9")
      = ("7",
         (getBalance (BalState.mk []) 1 "0xaddr" none true 0
           (Except.ok "7")).2.1,
         false)
    ∧ (getBalance
        ((getBalance (BalState.mk []) 1 "0xaddr" none true 0
          (Except.ok "7")).2.1) 1 "0xaddr" none true 6000
        (Except.ok "9")).2.2 = true :=
  ⟨(balance_cache_freshness (BalState.mk []) 1 "0xaddr" none 0 3000 6000
      "7" "9" (Except.ok "9") rfl (by decide) (by decide)).2.1,
   (balance_cache_freshness (BalState.mk []) 1 "0xaddr" none 0 3000 6000
      "7" "9" (Except.ok "9") rfl (by decide) (by decide)).2.2.1,
   (balance_cache_freshness (BalState.mk []) 1 "0xaddr" none 0 3000 6000
      "7" "9" (Except.ok "9") rfl (by decide) (by decide)).2.2.2⟩

section RetryExhaustion

/-- While the retry budget lasts, a benign absent-receipt tick (not
cancelled, not past the deadline, `null` receipt) keeps the loop
polling. -/
theorem pollTx_absent_run (options : WatchTransactionOptions)
    (transactionHash : String) (startTime : Int) (t : TickInput)
    (hab : t.aborted = false)
    (hto : t.now - startTime ≤ options.timeout)
    (hrcpt : t.receipt = Except.ok none) :
    ∀ (k r : Nat), k + r ≤ options.maxRetries →
      pollTx options transactionHash startTime (List.replicate k t) r
        = none := by
  intro k
  induction k with
  | zero => intro r _; rfl
  | succ k ih =>
    intro r hkr
    have hr : r < options.maxRetries := by omega
    have htick : txTick options transactionHash startTime t r
        = { out := TickOut.again, readReceipt := true, retries := r + 1 } := by
      simp [txTick, hab, not_lt.mpr hto, hrcpt, hr]
    rw [List.replicate_succ]
    simp only [pollTx, htick]
    exact ih (r + 1) (by omega)

/-- Once the budget is spent, the next benign absent-receipt tick
terminates the watch with the maximum-retries failure. -/
theorem pollTx_absent_exhaust (options : WatchTransactionOptions)
    (transactionHash : String) (startTime : Int) (t : TickInput)
    (hab : t.aborted = false)
    (hto : t.now - startTime ≤ options.timeout)
    (hrcpt : t.receipt = Except.ok none) :
    ∀ (k r : Nat), r ≤ options.maxRetries →
      k + r = options.maxRetries + 1 →
      pollTx options transactionHash startTime (List.replicate k t) r
        = some (Except.ok
            { transactionHash := transactionHash
              status := TransactionStatus.failed
              receipt := none
              error := some "Transaction not found after maximum retries"
              timestamp := t.now }) := by
  intro k
  induction k with
  | zero => intro r hr hkr; omega
  | succ k ih =>
    intro r hr hkr
    rw [List.replicate_succ]
    by_cases hrlt : r < options.maxRetries
    · have htick : txTick options transactionHash startTime t r
          = { out := TickOut.again, readReceipt := true, retries := r + 1 } := by
        simp [txTick, hab, not_lt.mpr hto, hrcpt, hrlt]
      simp only [pollTx, htick]
      exact ih (r + 1) (by omega) (by omega)
    · have hreq : r = options.maxRetries := by omega
      have hk0 : k = 0 := by omega
      have htick : txTick options transactionHash startTime t r
          = { out := TickOut.done
                { transactionHash := transactionHash
                  status := TransactionStatus.failed
                  receipt := none
                  error := some "Transaction not found after maximum retries"
                  timestamp := t.now }
              readReceipt := true, retries := r } := by
        simp [txTick, hab, not_lt.mpr hto, hrcpt, hrlt]
      rw [hk0]
      simp only [pollTx, htick]

end RetryExhaustion

/-- C6.  Retry-budget exhaustion: with an always-absent receipt source
and the deadline never reached, a watch with `maxRetries = N` is still
polling after any `k ≤ N` ticks, terminates with status `failed` and
error `'Transaction not found after maximum retries'` on tick `N + 1`,
and each absent read before exhaustion increments the retry counter by
exactly one (consuming one `retryInterval` wait). -/
theorem retry_budget_exhaustion (options : WatchTransactionOptions)
    (transactionHash : String) (startTime : Int) (t : TickInput)
    (hab : t.aborted = false)
    (hto : t.now - startTime ≤ options.timeout)
    (hrcpt : t.receipt = Except.ok none) :
    (∀ k : Nat, k ≤ options.maxRetries →
      pollTx options transactionHash startTime (List.replicate k t) 0 = none)
    ∧ pollTx options transactionHash startTime
        (List.replicate (options.maxRetries + 1) t) 0
      = some (Except.ok
          { transactionHash := transactionHash
            status := TransactionStatus.failed
            receipt := none
            error := some "Transaction not found after maximum retries"
            timestamp := t.now })
    ∧ ∀ r : Nat, r < options.maxRetries →
        txTick options transactionHash startTime t r
          = { out := TickOut.again, readReceipt := true, retries := r + 1 } := by
  refine ⟨?_, ?_, ?_⟩
  · intro k hk
    exact pollTx_absent_run options transactionHash startTime t hab hto hrcpt
      k 0 (by omega)
  · exact pollTx_absent_exhaust options transactionHash startTime t hab hto
      hrcpt (options.maxRetries + 1) 0 (by omega) (by omega)
  · intro r hr
    simp [txTick, hab, not_lt.mpr hto, hrcpt, hr]

/-- C6 witness: `maxRetries = 3`, an always-null receipt source; the
watch still polls after 3 ticks and fails on the 4th. -/
theorem retry_budget_exhaustion_witness :
    pollTx { maxRetries := 3, retryInterval := 1000, timeout := 100000,
             confirmationsRequired := 1 } "0xh" 0
        (List.replicate 3
          { now := 10, aborted := false, receipt := Except.ok none }) 0
      = none
    ∧ pollTx { maxRetries := 3, retryInterval := 1000, timeout := 100000,
                confirmationsRequired := 1 } "0xh" 0
        (List.replicate 4
          { now := 10, aborted := false, receipt := Except.ok none }) 0
      = some (Except.ok
          { transactionHash := "0xh"
            status := TransactionStatus.failed
            receipt := none
            error := some "Transaction not found after maximum retries"
            timestamp := 10 }) :=
  ⟨(retry_budget_exhaustion _ "0xh" 0 _ rfl (by decide) rfl).1 3 (by decide),
   (retry_budget_exhaustion { maxRetries := 3, retryInterval := 1000,
                               timeout := 100000, confirmationsRequired := 1 }
      "0xh" 0 { now := 10, aborted := false, receipt := Except.ok none } rfl
      (by decide) rfl).2.1⟩

/-- C7.  Cancellation: `cancelWatch` on a registered watch key removes
the registry entry and aborts that watch's controller; the running
loop observes the signal at the start of its next tick and its eventual
result rejects with the cancellation error. -/
theorem cancel_watch_rejects (s : TxServiceState) (transactionHash : String)
    (chainId : Int) (w : Nat)
    (hw : lookupEntry s.reg.entries (txWatcherKey chainId transactionHash)
      = some w) :
    lookupEntry (cancelWatch transactionHash chainId s).reg.entries
        (txWatcherKey chainId transactionHash) = none
    ∧ (cancelWatch transactionHash chainId s).abortedIds.contains w = true
    ∧ ∀ (options : WatchTransactionOptions) (startTime nowv : Int)
        (recv : Except String (Option TransactionReceipt))
        (rest : List TickInput) (retries : Nat),
        pollTx options transactionHash startTime
          ({ now := nowv
             aborted := (cancelWatch transactionHash chainId s).abortedIds.contains w
             receipt := recv } :: rest) retries
          = some (Except.error "Transaction watching was cancelled") := by
  have hcw : cancelWatch transactionHash chainId s
      = { reg := { entries := removeEntry s.reg.entries
                     (txWatcherKey chainId transactionHash)
                   nextId := s.reg.nextId }
          abortedIds := w :: s.abortedIds } := by
    simp [cancelWatch, hw]
  have hcontains : (cancelWatch transactionHash chainId s).abortedIds.contains w
      = true := by
    rw [hcw]
    simp
  refine ⟨?_, hcontains, ?_⟩
  · rw [hcw]
    exact lookupEntry_removeEntry _ _
  · intro options startTime nowv recv rest retries
    have htick : txTick options transactionHash startTime
        { now := nowv, aborted := true, receipt := recv } retries
        = { out := TickOut.cancelled, readReceipt := false,
            retries := retries } := by
      simp [txTick]
    rw [hcontains]
    simp only [pollTx, htick]

/-- C7 witness: cancelling the only registered watch. -/
theorem cancel_watch_rejects_witness :
    lookupEntry (cancelWatch "0xh" 1
        { reg := { entries := [(txWatcherKey 1 "0xh", 0)], nextId := 1 }
          abortedIds := [] }).reg.entries (txWatcherKey 1 "0xh") = none
    ∧ pollTx {} "0xh" 0
        ({ now := 5
           aborted := (cancelWatch "0xh" 1
             { reg := { entries := [(txWatcherKey 1 "0xh", 0)], nextId := 1 }
               abortedIds := [] }).abortedIds.contains 0
           receipt := Except.ok none } :: []) 0
      = some (Except.error "Transaction watching was cancelled") :=
  ⟨(cancel_watch_rejects
      { reg := { entries := [(txWatcherKey 1 "0xh", 0)], nextId := 1 }
        abortedIds := [] } "0xh" 1 0 (by simp [lookupEntry])).1,
   (cancel_watch_rejects
      { reg := { entries := [(txWatcherKey 1 "0xh", 0)], nextId := 1 }
        abortedIds := [] } "0xh" 1 0 (by simp [lookupEntry])).2.2
      {} 0 5 (Except.ok none) [] 0⟩

section UnreachableConfirmed

/-- With a confirmation requirement of at least 2 and every observed
receipt carrying the hardcoded single confirmation, no tick outcome is
a non-`failed` terminal update. -/
theorem txTick_done_failed (options : WatchTransactionOptions)
    (transactionHash : String) (startTime : Int) (t : TickInput) (r : Nat)
    (hconf : 2 ≤ options.confirmationsRequired)
    (hrc : ∀ rc : TransactionReceipt,
      t.receipt = Except.ok (some rc) → rc.confirmations = 1) :
    ∀ u : TransactionStatusUpdate,
      (txTick options transactionHash startTime t r).out = TickOut.done u →
      u.status = TransactionStatus.failed := by
  intro u hu
  by_cases hab : t.aborted
  · simp [txTick, hab] at hu
  · by_cases hto : t.now - startTime > options.timeout
    · simp only [txTick, hab, Bool.false_eq_true, if_false, if_pos hto] at hu
      injection hu with h2
      rw [← h2]
    · rcases hr : t.receipt with msg | orc
      · by_cases hb : r + 1 ≥ options.maxRetries
        · simp only [txTick, hab, Bool.false_eq_true, if_false, if_neg hto,
            hr, if_pos hb] at hu
          injection hu with h2
          rw [← h2]
        · simp [txTick, hab, hto, hr, hb] at hu
      · rcases orc with _ | rc
        · by_cases hb : r < options.maxRetries
          · simp [txTick, hab, hto, hr, hb] at hu
          · simp only [txTick, hab, Bool.false_eq_true, if_false, if_neg hto,
              hr, if_neg hb] at hu
            injection hu with h2
            rw [← h2]
        · have h1 : rc.confirmations = 1 := hrc rc hr
          have hlt : ¬ rc.confirmations ≥ options.confirmationsRequired := by
            omega
          by_cases hb : r < options.maxRetries
          · simp [txTick, hab, hto, hr, hlt, hb] at hu
          · simp only [txTick, hab, Bool.false_eq_true, if_false, if_neg hto,
              hr, if_neg hlt, if_neg hb] at hu
            injection hu with h2
            rw [← h2]

end UnreachableConfirmed

/-- C10.  Every receipt `getTransactionReceipt` constructs carries
exactly 1 confirmation, so a watch with `confirmationsRequired ≥ 2`
whose receipts all come from it can never resolve `confirmed`: any
resolution is a `failed` update (retry exhaustion, timeout, or a caught
error), the only other exit being cancellation. -/
theorem confirmations_hardcoded_unreachable (options : WatchTransactionOptions)
    (transactionHash : String) (startTime : Int) (ticks : List TickInput)
    (retries : Nat)
    (hconf : 2 ≤ options.confirmationsRequired)
    (hrec : ∀ t ∈ ticks, ∀ rc : TransactionReceipt,
      t.receipt = Except.ok (some rc) →
      ∃ (raw : RawRpcReceipt) (now0 : Int), rc = mkReceipt raw now0) :
    (∀ (raw : RawRpcReceipt) (now0 : Int),
      (mkReceipt raw now0).confirmations = 1)
    ∧ ∀ u : TransactionStatusUpdate,
        pollTx options transactionHash startTime ticks retries
          = some (Except.ok u) →
        u.status = TransactionStatus.failed := by
  refine ⟨fun _ _ => rfl, ?_⟩
  induction ticks generalizing retries with
  | nil => intro u hu; exact absurd hu (by simp [pollTx])
  | cons t rest ih =>
    intro u hu
    have hrct : ∀ rc : TransactionReceipt,
        t.receipt = Except.ok (some rc) → rc.confirmations = 1 := by
      intro rc hr
      obtain ⟨raw, now0, hcase⟩ := hrec t (by simp) rc hr
      rw [hcase]
      rfl
    rcases htick : txTick options transactionHash startTime t retries
      with ⟨o, rr, r2⟩
    rcases o with u2 | _ | _
    · simp only [pollTx, htick] at hu
      have h3 : u2 = u := by simpa using hu
      rw [← h3]
      exact txTick_done_failed options transactionHash startTime t retries
        hconf hrct u2 (by rw [htick])
    · simp [pollTx, htick] at hu
    · simp only [pollTx, htick] at hu
      exact ih r2 (fun tt htt => hrec tt (List.mem_cons_of_mem t htt)) u hu

/-- Concrete raw RPC receipt for exercising the hardcoded-confirmations
path. -/
def c10raw : RawRpcReceipt :=
  { transactionHash := "0xh", blockNumber := 2, blockHash := "0xb",
    gasUsed := 21000, effectiveGasPrice := some 3, statusHex := "0x1" }

/-- Two ticks whose receipt reads both return a receipt built by
`getTransactionReceipt`. -/
def c10ticks : List TickInput :=
  [{ now := 10, aborted := false,
     receipt := Except.ok (some (mkReceipt c10raw 5)) },
   { now := 20, aborted := false,
     receipt := Except.ok (some (mkReceipt c10raw 5)) }]

/-- Options demanding two confirmations with a one-retry budget. -/
def c10opts : WatchTransactionOptions :=
  { maxRetries := 1, retryInterval := 1, timeout := 1000,
    confirmationsRequired := 2 }

/-- C10 witness: a watch that keeps receiving a success receipt still
terminates `failed` (retry exhaustion) because the hardcoded single
confirmation never meets `confirmationsRequired = 2`. -/
theorem confirmations_hardcoded_unreachable_witness :
    TransactionStatusUpdate.status
      { transactionHash := "0xh", status := TransactionStatus.failed,
        receipt := none,
        error := some "Transaction not found after maximum retries",
        timestamp := 20 } = TransactionStatus.failed :=
  (confirmations_hardcoded_unreachable c10opts "0xh" 0 c10ticks 0 (by decide)
    (by
      intro t ht rc hr
      simp only [c10ticks, List.mem_cons, List.not_mem_nil, or_false] at ht
      rcases ht with h | h <;>
        (subst h
         have hr2 : Except.ok (some (mkReceipt c10raw 5))
             = Except.ok (some rc) := hr
         injection hr2 with h3
         injection h3 with h4
         exact ⟨c10raw, 5, h4.symm⟩))).2
    { transactionHash := "0xh", status := TransactionStatus.failed,
      receipt := none,
      error := some "Transaction not found after maximum retries",
      timestamp := 20 } (by decide)

/-- C3 counterexample.  In `watchBalance`'s poll tick the
`onBalanceChange` callback never fires on a balance change: starting
from an empty cache, the source returns `'100'` at the initial tick and
`'200'` at the next tick (10 s later, so the cache entry is stale and an
external read is issued and returns the changed value), yet the second
tick passes zero updates to the callback — `getBalance` has already
overwritten the shared cache entry with `'200'` before `pollBalance`
reads it back as `previousBalance`. -/
theorem balance_change_callback_suppressed :
    (pollBalance (pollBalance { cache := [] } "0xabc" 1 none 0
        (Except.ok "100")).1 "0xabc" 1 none 10000 (Except.ok "200")).2
      = ([] : List BalanceUpdate)
    ∧ (getBalance (pollBalance { cache := [] } "0xabc" 1 none 0
        (Except.ok "100")).1 1 "0xabc" none true 10000 (Except.ok "200")).2.2
      = true
    ∧ (getBalance (pollBalance { cache := [] } "0xabc" 1 none 0
        (Except.ok "100")).1 1 "0xabc" none true 10000 (Except.ok "200")).1
      = "200"
    ∧ lookupCache ((pollBalance { cache := [] } "0xabc" 1 none 0
        (Except.ok "100")).1).cache (balKey 1 "0xabc" none)
      = some { balance := "100", timestamp := 0 } := by
  refine ⟨by decide, by decide, by decide, by decide⟩

/-- C4 counterexample.  `trackRelayWithCallback` reports the freshly
computed progress verbatim (no max against the last reported value), so
the caller-visible stream regresses: a heuristic estimate of 80
(elapsed 80000 ms of a 120000 ms estimate) followed by an API result of
40 yields the reported sequence `[80, 40, 100]`, whose second element is
below the first, whereas `max 80 40 = 80`. -/
theorem relay_progress_regression :
    relayCallbackStream true 0
        [(RelayStatusKind.relaying, 80), (RelayStatusKind.relaying, 40),
         (RelayStatusKind.completed, 100)]
      = [80, 40, 100]
    ∧ (40 : Rat) < 80
    ∧ max (80 : Rat) 40 = 80
    ∧ heuristicProgress 80000 120000 = 80 := by
  refine ⟨by decide, by norm_num, by norm_num, ?_⟩
  norm_num [heuristicProgress]
